import Mathlib

/-!
Verification of the protection decision engine of dhan-tracker.

Shallow embedding conventions:
* Python floats that hold prices and percentages are modelled as exact
  rationals (`ℚ`).
* the Python built-in `round(x, 2)` is modelled as round-half-to-even on the
  exact rational value (`round2` below, built on the integer rounding `rhe`).
* Python dicts used as caches are modelled as functions `String → Option _`
  (a `none` result is an absent key, matching `dict.get(k, default)`).
* Broker / quote I/O is modelled by passing the remote responses in as
  explicit oracle arguments; each decision function returns, next to its
  `ProtectionResult`, the list of broker mutations it issued, each tagged
  with the oracle-supplied success flag.
* Log-message strings that Python builds with interpolated numbers are kept
  as fixed descriptive literals; no claim depends on their exact text.
-/

namespace DhanTracker

/-- Round half to even of a rational to an integer, the rounding used by
the Python built-in `round`. -/
def rhe (x : ℚ) : ℤ :=
  if Int.fract x < 1/2 then ⌊x⌋
  else if 1/2 < Int.fract x then ⌊x⌋ + 1
  else if ⌊x⌋ % 2 = 0 then ⌊x⌋ else ⌊x⌋ + 1

/-- Evaluation of the Python `round(x, 2)` on the exact rational value. -/
def round2 (x : ℚ) : ℚ := (rhe (100 * x) : ℚ) / 100

/-- Holding dataclass from `models.py`. Quantities are integers, prices exact
rationals. -/
structure Holding where
  exchange : String
  trading_symbol : String
  security_id : String
  isin : String
  total_qty : ℤ
  dp_qty : ℤ
  t1_qty : ℤ
  available_qty : ℤ
  collateral_qty : ℤ
  avg_cost_price : ℚ
  deriving DecidableEq

/-- LegDetail dataclass from `models.py`. -/
structure LegDetail where
  order_id : String
  leg_name : String
  transaction_type : String
  total_quantity : ℤ
  remaining_quantity : ℤ
  triggered_quantity : ℤ
  price : ℚ
  order_status : String
  trailing_jump : ℚ := 0
  deriving DecidableEq

/-- SuperOrder dataclass from `models.py`, restricted to the fields the
protection engine reads (client id, timestamps and fill metadata are never
consulted by the embedded operations). -/
structure SuperOrder where
  order_id : String
  order_status : String
  transaction_type : String
  trading_symbol : String
  security_id : String
  quantity : ℤ
  leg_details : List LegDetail
  deriving DecidableEq

/-- SuperOrder.stop_loss_leg property: the first leg named
`STOP_LOSS_LEG`, if any. -/
def SuperOrder.stop_loss_leg (o : SuperOrder) : Option LegDetail :=
  o.leg_details.find? (fun leg => leg.leg_name == "STOP_LOSS_LEG")

/-- ProtectiveOrder dataclass from `models.py`. -/
structure ProtectiveOrder where
  security_id : String
  trading_symbol : String
  quantity : ℤ
  entry_price : ℚ
  stop_loss_price : ℚ
  target_price : ℚ
  trailing_jump : ℚ := 0
  exchange_segment : String := "NSE_EQ"
  product_type : String := "CNC"
  deriving DecidableEq

/-- Super order API request dict built by
`ProtectiveOrder.to_super_order_request`. -/
structure SuperOrderRequest where
  dhanClientId : String
  correlationId : String
  transactionType : String
  exchangeSegment : String
  productType : String
  orderType : String
  securityId : String
  quantity : ℤ
  price : ℚ
  triggerPrice : ℚ
  targetPrice : ℚ
  stopLossPrice : ℚ
  trailingJump : ℚ
  deriving DecidableEq

/-- ProtectiveOrder.to_super_order_request from `models.py`; `now` stands for
the `datetime.now().strftime(...)` component of the correlation id. -/
def ProtectiveOrder.to_super_order_request (p : ProtectiveOrder) (client_id now : String) :
    SuperOrderRequest :=
  { dhanClientId := client_id
    correlationId := "protect_" ++ p.security_id ++ "_" ++ now
    transactionType := "SELL"
    exchangeSegment := p.exchange_segment
    productType := p.product_type
    orderType := "STOP_LOSS_MARKET"
    securityId := p.security_id
    quantity := p.quantity
    price := 0
    triggerPrice := p.stop_loss_price
    targetPrice := 0
    stopLossPrice := 0
    trailingJump := p.trailing_jump }

/-- ProtectionConfig dataclass from `protection.py` (including the deprecated
legacy knobs). -/
structure ProtectionConfig where
  max_loss_percent : ℚ
  deep_loss_sl_percent : ℚ
  profit_tiers : List (ℚ × ℚ)
  target_percent : ℚ
  trailing_jump : ℚ
  min_quantity : ℤ
  min_value : ℚ
  exchange_segment : String
  stop_loss_from_high_percent : ℚ
  stop_loss_percent : ℚ
  profit_lock_threshold : ℚ
  profit_lock_percent : ℚ

/-- Default field values of the `ProtectionConfig` dataclass. -/
def defaultConfig : ProtectionConfig :=
  { max_loss_percent := 10
    deep_loss_sl_percent := 5
    profit_tiers := [(50, 35), (30, 20), (20, 12), (10, 5), (5, 2), (0, 0)]
    target_percent := 20
    trailing_jump := 0
    min_quantity := 1
    min_value := 0
    exchange_segment := "NSE_EQ"
    stop_loss_from_high_percent := 10
    stop_loss_percent := 5
    profit_lock_threshold := 10
    profit_lock_percent := 5 }

/-- ProtectionResult dataclass from `protection.py`. Messages that Python
builds with interpolated numbers are kept as fixed descriptive literals. -/
structure ProtectionResult where
  holding : Holding
  success : Bool
  ltp : ℚ := 0
  order_id : Option String := none
  message : String := ""
  stop_loss_price : ℚ := 0
  target_price : ℚ := 0
  deriving DecidableEq

/-- Tier-scan loop of `calculate_tiered_stop_loss`: the first tier whose
threshold is reached supplies the lock percent (`break`); if no tier matches
the initial `lock_percent = 0.0` stands. -/
def findLock : List (ℚ × ℚ) → ℚ → ℚ
  | [], _ => 0
  | (min_pnl, lock_pct) :: rest, pnl =>
      if min_pnl ≤ pnl then lock_pct else findLock rest pnl

/-- PortfolioProtector.calculate_tiered_stop_loss. The tier description is
abbreviated to the branch name. -/
def calculate_tiered_stop_loss (cfg : ProtectionConfig) (cost_price current_price : ℚ) :
    ℚ × String :=
  if cost_price ≤ 0 then
    (round2 (current_price * (1 - cfg.deep_loss_sl_percent / 100)), "LTP-based (no cost data)")
  else
    let pnl_percent := (current_price - cost_price) / cost_price * 100
    if 0 ≤ pnl_percent then
      (round2 (cost_price * (1 + findLock cfg.profit_tiers pnl_percent / 100)), "PROFIT TIER")
    else if -cfg.max_loss_percent < pnl_percent then
      (round2 (cost_price * (1 - cfg.max_loss_percent / 100)), "RECOVERY ROOM")
    else
      (round2 (current_price * (1 - cfg.deep_loss_sl_percent / 100)), "DAMAGE LIMIT")

/-- PortfolioProtector.calculate_stop_loss_price (deprecated LTP-based
stop). -/
def calculate_stop_loss_price (cfg : ProtectionConfig) (ltp : ℚ) : ℚ :=
  round2 (ltp * (1 - cfg.stop_loss_percent / 100))

/-- PortfolioProtector.calculate_target_price. -/
def calculate_target_price (cfg : ProtectionConfig) (ltp : ℚ) : ℚ :=
  round2 (ltp * (1 + cfg.target_percent / 100))

/-- Stop-loss price used for order placement: the tier computation followed by
the safety clamp. These lines appear verbatim in both
`protect_holding` and `protect_portfolio_amo`. -/
def protectStopLoss (cfg : ProtectionConfig) (cost_price ltp : ℚ) : ℚ × String :=
  let computed := calculate_tiered_stop_loss cfg cost_price ltp
  if ltp ≤ computed.1 then
    (round2 (ltp * (95/100)), "SAFETY FALLBACK: SL at LTP -5%")
  else computed

/-- PortfolioProtector.create_protective_order. -/
def create_protective_order (cfg : ProtectionConfig) (holding : Holding) (ltp : ℚ)
    (stop_loss_price : Option ℚ) : ProtectiveOrder :=
  { security_id := holding.security_id
    trading_symbol := holding.trading_symbol
    quantity := holding.available_qty
    entry_price := ltp
    stop_loss_price := stop_loss_price.getD (calculate_stop_loss_price cfg ltp)
    target_price := calculate_target_price cfg ltp
    trailing_jump := cfg.trailing_jump
    exchange_segment := cfg.exchange_segment
    product_type := "CNC" }

/-- API mutation issued to the broker, with the argument values the source
passes. -/
inductive BrokerCall
  | modifySuperSL (order_id : String) (stop_loss_price trailing_jump : ℚ)
  | modifySuperTarget (order_id : String) (target_price : ℚ)
  | placeSuper (order : ProtectiveOrder)
  | modifyOrder (order_id order_type : String) (trigger_price : ℚ)
  | cancelOrder (order_id : String)
  | placeSL (security_id : String) (quantity : ℤ) (trigger_price : ℚ) (amo_time : String)
  deriving DecidableEq

/-- Mutation tagged with whether the broker accepted it (the oracle-supplied
outcome of the `try` around the call). -/
abbrev Mutation := BrokerCall × Bool

/-- Oracle for the broker responses consumed by `protect_holding`. -/
structure SuperBroker where
  modifySLOk : Bool
  modifySLStatus : String
  modifyTargetOk : Bool
  placeOk : Bool
  placeOrderId : String
  placeStatus : String

/-- Decision-and-execution body of `PortfolioProtector.protect_holding`.
Broker responses come from the `br` oracle; the second component records the
broker calls issued, in order, each with its success flag. -/
def protect_holding (cfg : ProtectionConfig) (holding : Holding) (ltp : ℚ)
    (existing_order : Option SuperOrder) (force : Bool) (br : SuperBroker) :
    ProtectionResult × List Mutation :=
  if holding.available_qty < cfg.min_quantity then
    ({ holding := holding, success := false, ltp := ltp,
       message := "Available quantity below minimum" }, [])
  else if holding.available_qty * ltp < cfg.min_value then
    ({ holding := holding, success := false, ltp := ltp,
       message := "Holding value below minimum" }, [])
  else if ltp ≤ 0 then
    ({ holding := holding, success := false, ltp := ltp,
       message := "Could not fetch LTP for this security" }, [])
  else
    let stopped := protectStopLoss cfg holding.avg_cost_price ltp
    let new_stop_loss := stopped.1
    let new_target := calculate_target_price cfg ltp
    let createPath : ProtectionResult × List Mutation :=
      let protective_order := create_protective_order cfg holding ltp (some new_stop_loss)
      if br.placeOk then
        ({ holding := holding,
           success := br.placeStatus == "PENDING" || br.placeStatus == "TRANSIT",
           ltp := ltp,
           order_id := some br.placeOrderId,
           message := "Protected",
           stop_loss_price := protective_order.stop_loss_price,
           target_price := protective_order.target_price },
         [(BrokerCall.placeSuper protective_order, true)])
      else
        ({ holding := holding, success := false, ltp := ltp,
           message := "place_protective_order failed" },
         [(BrokerCall.placeSuper protective_order, false)])
    match existing_order with
    | some ord =>
        if force then
          if br.modifySLOk then
            let targetMuts : List Mutation :=
              if 0 < new_target then
                [(BrokerCall.modifySuperTarget ord.order_id new_target, br.modifyTargetOk)]
              else []
            ({ holding := holding,
               success := br.modifySLStatus == "PENDING" || br.modifySLStatus == "TRANSIT",
               ltp := ltp,
               order_id := some ord.order_id,
               message := "Order modified",
               stop_loss_price := new_stop_loss,
               target_price := new_target },
             (BrokerCall.modifySuperSL ord.order_id new_stop_loss cfg.trailing_jump, true)
               :: targetMuts)
          else
            (createPath.1,
             (BrokerCall.modifySuperSL ord.order_id new_stop_loss cfg.trailing_jump, false)
               :: createPath.2)
        else
          ({ holding := holding, success := true, ltp := ltp,
             order_id := some ord.order_id,
             message := "Already protected",
             stop_loss_price := (ord.stop_loss_leg.map LegDetail.price).getD 0 }, [])
    | none => createPath

/-- Existing pending AMO order: the dict fields the source reads
(`orderId`, `orderType`, `triggerPrice`). -/
structure AmoOrder where
  order_id : String
  order_type : String
  trigger_price : ℚ
  deriving DecidableEq

/-- Oracle for the broker responses consumed by the AMO path. -/
structure AmoBroker where
  modifyOk : Bool
  modifyStatus : String
  cancelOk : Bool
  placeOk : Bool
  placeOrderId : String
  placeStatus : String

/-- PortfolioProtector.place_amo_sl_order. -/
def place_amo_sl_order (cfg : ProtectionConfig) (holding : Holding) (ltp : ℚ)
    (amo_time : String) (stop_loss_price : Option ℚ) (br : AmoBroker) :
    ProtectionResult × List Mutation :=
  if ltp ≤ 0 then
    ({ holding := holding, success := false, ltp := ltp,
       message := "Invalid LTP for stop loss calculation" }, [])
  else
    let slp := stop_loss_price.getD (calculate_stop_loss_price cfg ltp)
    if br.placeOk then
      ({ holding := holding,
         success := br.placeStatus == "PENDING" || br.placeStatus == "TRANSIT",
         ltp := ltp,
         order_id := some br.placeOrderId,
         message := "AMO order placed",
         stop_loss_price := slp,
         target_price := 0 },
       [(BrokerCall.placeSL holding.security_id holding.available_qty slp amo_time, true)])
    else
      ({ holding := holding, success := false, ltp := ltp,
         message := "place_sl_order failed" },
       [(BrokerCall.placeSL holding.security_id holding.available_qty slp amo_time, false)])

/-- Loop body of `PortfolioProtector.protect_portfolio_amo` for one holding:
validity check, tier computation with safety clamp, modify-with-epsilon-skip
against an existing pending AMO order, else placement. -/
def protect_holding_amo (cfg : ProtectionConfig) (holding : Holding) (ltp : ℚ)
    (existing_order : Option AmoOrder) (force : Bool) (amo_time : String) (br : AmoBroker) :
    ProtectionResult × List Mutation :=
  if ltp ≤ 0 then
    ({ holding := holding, success := false, ltp := ltp, message := "Invalid LTP" }, [])
  else
    let stopped := protectStopLoss cfg holding.avg_cost_price ltp
    let new_stop_loss := stopped.1
    match existing_order with
    | some ord =>
        if force then
          if 1/20 < |ord.trigger_price - new_stop_loss| then
            if br.modifyOk then
              ({ holding := holding,
                 success := br.modifyStatus == "PENDING" || br.modifyStatus == "TRANSIT",
                 ltp := ltp,
                 order_id := some ord.order_id,
                 message := "Order modified",
                 stop_loss_price := new_stop_loss },
               [(BrokerCall.modifyOrder ord.order_id ord.order_type new_stop_loss, true)])
            else
              let placed := place_amo_sl_order cfg holding ltp amo_time (some new_stop_loss) br
              (placed.1,
               (BrokerCall.modifyOrder ord.order_id ord.order_type new_stop_loss, false)
                 :: (BrokerCall.cancelOrder ord.order_id, br.cancelOk) :: placed.2)
          else
            ({ holding := holding, success := true, ltp := ltp,
               order_id := some ord.order_id,
               message := "Already protected (no change needed)",
               stop_loss_price := ord.trigger_price }, [])
        else
          ({ holding := holding, success := true, ltp := ltp,
             order_id := some ord.order_id,
             message := "Already protected",
             stop_loss_price := ord.trigger_price }, [])
    | none => place_amo_sl_order cfg holding ltp amo_time (some new_stop_loss) br

/-- Bulk market data row (`MarketData` from `upstox_client.py`). -/
structure MarketData where
  latest_close : ℚ
  high_52_week : ℚ
  dma_200 : Option ℚ
  deriving DecidableEq

/-- Instance-level caches of `PortfolioProtector` (`_ltp_cache`,
`_52week_high_cache`, `_200dma_cache`), modelled as partial maps; all are
empty dicts at `__init__`. -/
structure ProtectorState where
  ltp_cache : String → Option ℚ
  high52_cache : String → Option ℚ
  dma200_cache : String → Option (Option ℚ)

/-- Cache state right after `PortfolioProtector.__init__`. -/
def initState : ProtectorState :=
  { ltp_cache := fun _ => none
    high52_cache := fun _ => none
    dma200_cache := fun _ => none }

/-- Cache effect of `PortfolioProtector.fetch_all_market_data`: entries are
written only for holdings the bulk response covers; the dicts are not
cleared first. -/
def fetch_all_market_data (st : ProtectorState) (holdings : List Holding)
    (market_data : String → Option MarketData) : ProtectorState :=
  holdings.foldl
    (fun s h =>
      match market_data h.isin with
      | some d =>
          { ltp_cache := fun k => if k = h.security_id then some d.latest_close else s.ltp_cache k
            high52_cache := fun k => if k = h.security_id then some d.high_52_week else s.high52_cache k
            dma200_cache := fun k => if k = h.security_id then some d.dma_200 else s.dma200_cache k }
      | none => s)
    st

/-- LTP that `protect_portfolio` (and `protect_portfolio_amo`) hands to the
per-holding step: `self._ltp_cache.get(holding.security_id, 0.0)`. -/
def portfolio_ltp (st : ProtectorState) (holding : Holding) : ℚ :=
  (st.ltp_cache holding.security_id).getD 0

/-- Lock percent selected by the default profit-tier table, restated as
thresholds on the current price (first matching tier of the descending
scan). -/
def lockOf (cost c : ℚ) : ℚ :=
  if 150/100 * cost ≤ c then 35
  else if 130/100 * cost ≤ c then 20
  else if 120/100 * cost ≤ c then 12
  else if 110/100 * cost ≤ c then 5
  else if 105/100 * cost ≤ c then 2
  else 0

/-- Pre-rounding stop value selected by the tier logic under the default
configuration, as a piecewise function of the current price. -/
def gstop (cost c : ℚ) : ℚ :=
  if cost ≤ 0 then 19/20 * c
  else if cost ≤ c then cost * (1 + lockOf cost c / 100)
  else if 9/10 * cost < c then cost * (9/10)
  else 19/20 * c

/-- Boolean test: the broker call modifies an existing order. -/
def isOrderModify : BrokerCall → Bool
  | BrokerCall.modifySuperSL _ _ _ => true
  | BrokerCall.modifySuperTarget _ _ => true
  | BrokerCall.modifyOrder _ _ _ => true
  | _ => false

/-- Boolean test: the broker call places a new order. -/
def isOrderCreate : BrokerCall → Bool
  | BrokerCall.placeSuper _ => true
  | BrokerCall.placeSL _ _ _ _ => true
  | _ => false

/-- Trigger price carried by an order-placing broker call, if it is one. -/
def createTrigger : BrokerCall → Option ℚ
  | BrokerCall.placeSuper p => some p.stop_loss_price
  | BrokerCall.placeSL _ _ t _ => some t
  | _ => none

/-- Holds when a mutation list never contains both a successful modify and an
order placement. -/
def noDoubleAction (ms : List Mutation) : Bool :=
  !((ms.any fun m => isOrderModify m.1 && m.2) && (ms.any fun m => isOrderCreate m.1))

/-- Fixture: a one-share holding bought at cost 1. -/
def hTiny : Holding :=
  { exchange := "NSE", trading_symbol := "TST", security_id := "S1", isin := "I1",
    total_qty := 1, dp_qty := 1, t1_qty := 0, available_qty := 1, collateral_qty := 0,
    avg_cost_price := 1 }

/-- Fixture: a ten-share holding bought at cost 100. -/
def h100 : Holding :=
  { exchange := "NSE", trading_symbol := "BIG", security_id := "S2", isin := "I2",
    total_qty := 10, dp_qty := 10, t1_qty := 0, available_qty := 10, collateral_qty := 0,
    avg_cost_price := 100 }

/-- Fixture: a stop-loss leg resting at price 135. -/
def legSL135 : LegDetail :=
  { order_id := "SO2", leg_name := "STOP_LOSS_LEG", transaction_type := "SELL",
    total_quantity := 10, remaining_quantity := 10, triggered_quantity := 0,
    price := 135, order_status := "PENDING", trailing_jump := 0 }

/-- Fixture: a resting SELL super order whose stop-loss leg sits at 135. -/
def ordSL135 : SuperOrder :=
  { order_id := "SO2", order_status := "PENDING", transaction_type := "SELL",
    trading_symbol := "BIG", security_id := "S2", quantity := 10,
    leg_details := [legSL135] }

/-- Fixture: broker oracle whose calls all succeed with status PENDING. -/
def brOk : SuperBroker :=
  { modifySLOk := true, modifySLStatus := "PENDING", modifyTargetOk := true,
    placeOk := true, placeOrderId := "NEW1", placeStatus := "PENDING" }

/-- Fixture: a pending AMO stop order with trigger 135. -/
def amoOrd135 : AmoOrder :=
  { order_id := "AO1", order_type := "STOP_LOSS_MARKET", trigger_price := 135 }

/-- Fixture: AMO broker oracle whose calls all succeed with status PENDING. -/
def amoBrOk : AmoBroker :=
  { modifyOk := true, modifyStatus := "PENDING", cancelOk := true,
    placeOk := true, placeOrderId := "AO2", placeStatus := "PENDING" }

/-- Fixture: first-pass bulk market data covering only isin I1 at close
price 100. -/
def mdPass1 : String → Option MarketData :=
  fun i => if i = "I1" then some { latest_close := 100, high_52_week := 120, dma_200 := none }
    else none

theorem floor_le_rhe (x : ℚ) : ⌊x⌋ ≤ rhe x := by
  unfold rhe; split_ifs <;> omega

theorem rhe_le_floor_add_one (x : ℚ) : rhe x ≤ ⌊x⌋ + 1 := by
  unfold rhe; split_ifs <;> omega

theorem rhe_le (x : ℚ) : (rhe x : ℚ) ≤ x + 1/2 := by
  have hf := Int.floor_le x
  have hfr : Int.fract x = x - ⌊x⌋ := Int.self_sub_floor x ▸ rfl
  unfold rhe
  split_ifs with h1 h2 h3
  · linarith
  · rw [hfr] at h2; push_cast; linarith
  · rw [hfr] at h1 h2
    linarith
  · rw [hfr] at h1 h2
    push_cast
    linarith

theorem le_rhe (x : ℚ) : x - 1/2 ≤ (rhe x : ℚ) := by
  have hf := Int.lt_floor_add_one x
  have hfr : Int.fract x = x - ⌊x⌋ := Int.self_sub_floor x ▸ rfl
  unfold rhe
  split_ifs with h1 h2 h3
  · rw [hfr] at h1; linarith
  · push_cast; linarith
  · rw [hfr] at h1 h2
    linarith
  · push_cast; linarith

theorem rhe_intCast (n : ℤ) : rhe (n : ℚ) = n := by
  unfold rhe
  rw [Int.fract_intCast, Int.floor_intCast]
  norm_num

theorem rhe_le_of_lt_half (x : ℚ) (n : ℤ) (h : x < (n : ℚ) + 1/2) : rhe x ≤ n := by
  have hfr_def : Int.fract x = x - ⌊x⌋ := (Int.self_sub_floor x) ▸ rfl
  rcases lt_or_le ⌊x⌋ n with hfl | hfl
  · have := rhe_le_floor_add_one x; omega
  · have hn : (n : ℚ) ≤ ⌊x⌋ := by exact_mod_cast hfl
    have hfloor_le : (⌊x⌋ : ℚ) ≤ x := Int.floor_le x
    have hup : ⌊x⌋ ≤ n := by
      have h2 : (⌊x⌋ : ℚ) < ((n + 1 : ℤ) : ℚ) := by push_cast; linarith
      have h3 : ⌊x⌋ < n + 1 := by exact_mod_cast h2
      omega
    have hfn : ⌊x⌋ = n := le_antisymm hup hfl
    have hfr : Int.fract x < 1/2 := by
      rw [hfr_def, hfn]; linarith
    unfold rhe
    rw [if_pos hfr, hfn]

theorem le_rhe_of_half_lt (x : ℚ) (n : ℤ) (h : (n : ℚ) - 1/2 < x) : n ≤ rhe x := by
  have hfr_def : Int.fract x = x - ⌊x⌋ := (Int.self_sub_floor x) ▸ rfl
  rcases le_or_lt n ⌊x⌋ with hfl | hfl
  · exact le_trans hfl (floor_le_rhe x)
  · have hle : ((⌊x⌋ + 1 : ℤ) : ℚ) ≤ (n : ℚ) := by exact_mod_cast hfl
    have hxlt : x < (n : ℚ) := by
      have := Int.lt_floor_add_one x
      push_cast at hle
      linarith
    have hfn : ⌊x⌋ = n - 1 := by
      have h1 : (n - 1 : ℤ) ≤ ⌊x⌋ := by
        rw [Int.le_floor]; push_cast; linarith
      omega
    have hfr : 1/2 < Int.fract x := by
      rw [hfr_def, hfn]; push_cast; linarith
    have hrw : rhe x = ⌊x⌋ + 1 := by
      unfold rhe
      rw [if_neg (by linarith), if_pos hfr]
    omega

theorem rhe_mono {x y : ℚ} (h : x ≤ y) : rhe x ≤ rhe y := by
  rcases le_or_lt ⌊y⌋ ⌊x⌋ with hfl | hfl
  · have hfe : ⌊x⌋ = ⌊y⌋ := le_antisymm (Int.floor_le_floor h) hfl
    have hfr : Int.fract x ≤ Int.fract y := by
      rw [Int.fract, Int.fract, hfe]; linarith
    unfold rhe
    rw [hfe]
    split_ifs <;> first | omega | linarith
  · have h1 := rhe_le_floor_add_one x
    have h2 := floor_le_rhe y
    omega

theorem round2_mono {x y : ℚ} (h : x ≤ y) : round2 x ≤ round2 y := by
  unfold round2
  have := rhe_mono (mul_le_mul_of_nonneg_left h (by norm_num : (0:ℚ) ≤ 100))
  have hc : ((rhe (100 * x) : ℤ) : ℚ) ≤ ((rhe (100 * y) : ℤ) : ℚ) := by exact_mod_cast this
  linarith

theorem round2_le (x : ℚ) : round2 x ≤ x + 1/200 := by
  unfold round2
  have := rhe_le (100 * x)
  linarith

theorem le_round2 (x : ℚ) : x - 1/200 ≤ round2 x := by
  unfold round2
  have := le_rhe (100 * x)
  linarith

theorem round2_round2 (x : ℚ) : round2 (round2 x) = round2 x := by
  unfold round2
  have h : (100 : ℚ) * ((rhe (100 * x) : ℚ) / 100) = ((rhe (100 * x) : ℤ) : ℚ) := by
    field_simp
  rw [h, rhe_intCast]

theorem round2_le_of_lt_half (x : ℚ) (k : ℤ) (h : 100 * x < (k : ℚ) + 1/2) :
    round2 x ≤ (k : ℚ) / 100 := by
  unfold round2
  have := rhe_le_of_lt_half (100 * x) k h
  have hc : ((rhe (100 * x) : ℤ) : ℚ) ≤ (k : ℚ) := by exact_mod_cast this
  linarith

theorem le_round2_of_half_lt (x : ℚ) (k : ℤ) (h : (k : ℚ) - 1/2 < 100 * x) :
    (k : ℚ) / 100 ≤ round2 x := by
  unfold round2
  have := le_rhe_of_half_lt (100 * x) k h
  have hc : (k : ℚ) ≤ ((rhe (100 * x) : ℤ) : ℚ) := by exact_mod_cast this
  linarith

theorem pnl_ge_iff (cost c m : ℚ) (hc : 0 < cost) :
    m ≤ (c - cost) / cost * 100 ↔ (1 + m/100) * cost ≤ c := by
  rw [div_mul_eq_mul_div, le_div_iff₀ hc]
  constructor <;> intro h <;> nlinarith

theorem pnl_gt_iff (cost c m : ℚ) (hc : 0 < cost) :
    m < (c - cost) / cost * 100 ↔ (1 + m/100) * cost < c := by
  rw [div_mul_eq_mul_div, lt_div_iff₀ hc]
  constructor <;> intro h <;> nlinarith

theorem findLock_default (cost c : ℚ) (hc : 0 < cost) :
    findLock defaultConfig.profit_tiers ((c - cost) / cost * 100) = lockOf cost c := by
  have key : ∀ m : ℚ, (m ≤ (c - cost) / cost * 100) ↔ ((1 + m/100) * cost ≤ c) :=
    fun m => pnl_ge_iff cost c m hc
  have hts : defaultConfig.profit_tiers = [(50, 35), (30, 20), (20, 12), (10, 5), (5, 2), (0, 0)] :=
    rfl
  rw [hts]
  simp only [findLock, key]
  unfold lockOf
  have e50 : (1 + (50:ℚ)/100) * cost = 150/100 * cost := by ring
  have e30 : (1 + (30:ℚ)/100) * cost = 130/100 * cost := by ring
  have e20 : (1 + (20:ℚ)/100) * cost = 120/100 * cost := by ring
  have e10 : (1 + (10:ℚ)/100) * cost = 110/100 * cost := by ring
  have e5 : (1 + (5:ℚ)/100) * cost = 105/100 * cost := by ring
  rw [e50, e30, e20, e10, e5]
  split_ifs <;> rfl

theorem tiered_eq_gstop (cost c : ℚ) :
    (calculate_tiered_stop_loss defaultConfig cost c).1 = round2 (gstop cost c) := by
  unfold calculate_tiered_stop_loss gstop
  rcases le_or_lt cost 0 with hc0 | hc0
  · rw [if_pos hc0, if_pos hc0]
    show round2 (c * (1 - (5:ℚ)/100)) = round2 (19/20 * c)
    congr 1
    ring
  · rw [if_neg (not_le.mpr hc0), if_neg (not_le.mpr hc0)]
    by_cases hp : (0:ℚ) ≤ (c - cost) / cost * 100
    · have hpc : cost ≤ c := by
        have h0 := (pnl_ge_iff cost c 0 hc0).mp hp
        nlinarith
      rw [if_pos hp, if_pos hpc]
      show round2 (cost * (1 + findLock defaultConfig.profit_tiers ((c - cost) / cost * 100) / 100))
        = round2 (cost * (1 + lockOf cost c / 100))
      rw [findLock_default cost c hc0]
    · have hpc : ¬ cost ≤ c := by
        intro hle
        exact hp ((pnl_ge_iff cost c 0 hc0).mpr (by nlinarith))
      rw [if_neg hp, if_neg hpc]
      have hiff := pnl_gt_iff cost c (-10) hc0
      have he : (1 + (-10:ℚ)/100) * cost = 9/10 * cost := by ring
      rw [he] at hiff
      have hml : -defaultConfig.max_loss_percent = (-10 : ℚ) := by
        show -(10:ℚ) = -10; norm_num
      by_cases hs : -defaultConfig.max_loss_percent < (c - cost) / cost * 100
      · have hsc : 9/10 * cost < c := hiff.mp (hml ▸ hs)
        rw [if_pos hs, if_pos hsc]
        show round2 (cost * (1 - (10:ℚ)/100)) = round2 (cost * (9/10))
        congr 1
        ring
      · have hsc : ¬ 9/10 * cost < c := fun hlt => hs (hml ▸ hiff.mpr hlt)
        rw [if_neg hs, if_neg hsc]
        show round2 (c * (1 - (5:ℚ)/100)) = round2 (19/20 * c)
        congr 1
        ring

theorem protectStopLoss_price (cfg : ProtectionConfig) (cost ltp : ℚ) :
    (protectStopLoss cfg cost ltp).1 =
      if ltp ≤ (calculate_tiered_stop_loss cfg cost ltp).1
      then round2 (ltp * (95/100))
      else (calculate_tiered_stop_loss cfg cost ltp).1 := by
  simp only [protectStopLoss]
  split_ifs <;> rfl

set_option maxHeartbeats 1600000 in
theorem gstop_mono (cost : ℚ) {c1 c2 : ℚ} (h1 : 0 < c1) (h12 : c1 ≤ c2) :
    gstop cost c1 ≤ gstop cost c2 := by
  unfold gstop lockOf
  split_ifs <;> linarith

/-- Core of the non-trivial clamp interaction in the monotonicity proof: the
current price `c1` sits in the breakeven tier and is not clamped, while `c2`
sits in the 5-percent tier and is clamped; then the rounded tier values are
close enough that the clamp value at `c2` still dominates. -/
theorem clamp_hard_case (cost c1 c2 : ℚ) (_hcost : 0 < cost)
    (hu1 : round2 cost < c1)
    (hb2 : c1 < 105/100 * cost)
    (ht2 : 105/100 * cost ≤ c2) (ht3 : c2 < 110/100 * cost)
    (hcl : c2 ≤ round2 (102/100 * cost)) :
    round2 cost ≤ round2 (19/20 * c2) := by
  obtain ⟨k, hk⟩ : ∃ k : ℤ, rhe (100 * cost) = k := ⟨_, rfl⟩
  have hr2c : round2 cost = (k : ℚ) / 100 := by rw [round2, hk]
  have hc16 : cost ≤ 1/6 := by
    have := round2_le (102/100 * cost)
    linarith
  have hk17 : (k : ℚ) ≤ 17 := by
    have hb := round2_le cost
    rw [hr2c] at hb
    have h2 : (k : ℚ) ≤ 103/6 := by linarith
    have h3 : k ≤ 17 := by
      by_contra hcon
      push_neg at hcon
      have : (18 : ℚ) ≤ (k : ℚ) := by exact_mod_cast hcon
      linarith
    exact_mod_cast h3
  have hcost_big : (2 * (k : ℚ) - 1) * 2 / 399 < cost := by
    by_contra hcon
    push_neg at hcon
    have h102 : 100 * (102/100 * cost) < (k : ℚ) + 1/2 := by linarith
    have hle := round2_le_of_lt_half (102/100 * cost) k h102
    rw [hr2c] at hu1
    linarith
  have hfin : (k : ℚ) - 1/2 < 100 * (19/20 * c2) := by linarith
  rw [hr2c]
  exact le_round2_of_half_lt (19/20 * c2) k hfin

set_option maxHeartbeats 3200000 in
/-- Cross case of the clamp monotonicity: the stop at `c1` is not clamped
while the stop at `c2` is. -/
theorem clamp_cross_case (cost c1 c2 : ℚ) (h1 : 0 < c1) (h12 : c1 ≤ c2)
    (hu : round2 (gstop cost c1) < c1)
    (hcl : c2 ≤ round2 (gstop cost c2)) :
    round2 (gstop cost c1) ≤ round2 (c2 * (95/100)) := by
  have h95 : c2 * (95/100) = 19/20 * c2 := by ring
  rw [h95]
  unfold gstop lockOf at hu hcl ⊢
  split_ifs at hu hcl ⊢ <;>
    first
      | linarith
      | (apply round2_mono; linarith)
      | (have e0 : cost * (1 + 0/100) = cost := by ring
         have e2 : cost * (1 + 2/100) = 102/100 * cost := by ring
         rw [e0] at hu ⊢
         rw [e2] at hcl
         exact clamp_hard_case cost c1 c2 (by linarith) hu (by linarith) (by linarith)
           (by linarith) hcl)


theorem round2_eq_of (x : ℚ) (k : ℤ) (h1 : (k : ℚ) - 1/2 < 100 * x)
    (h2 : 100 * x < (k : ℚ) + 1/2) : round2 x = (k : ℚ) / 100 :=
  le_antisymm (round2_le_of_lt_half x k h2) (le_round2_of_half_lt x k h1)

theorem tiered_default_100_150 : (calculate_tiered_stop_loss defaultConfig 100 150).1 = 135 := by
  have hg : gstop 100 150 = 135 := by unfold gstop lockOf; norm_num
  rw [tiered_eq_gstop, hg]
  have h := round2_eq_of (135 : ℚ) 13500 (by norm_num) (by norm_num)
  rw [h]; norm_num

theorem stop_default_100_150 : (protectStopLoss defaultConfig 100 150).1 = 135 := by
  rw [protectStopLoss_price, tiered_default_100_150,
    if_neg (by norm_num : ¬ (150 : ℚ) ≤ 135)]

theorem target_default_150 : calculate_target_price defaultConfig 150 = 180 := by
  unfold calculate_target_price
  have he : (150 : ℚ) * (1 + defaultConfig.target_percent / 100) = 180 := by
    norm_num [defaultConfig]
  rw [he]
  have h := round2_eq_of (180 : ℚ) 18000 (by norm_num) (by norm_num)
  rw [h]; norm_num

theorem stop_default_tiny : (protectStopLoss defaultConfig 1 (1/250)).1 = 0 := by
  have hg : gstop 1 (1/250) = 19/5000 := by unfold gstop lockOf; norm_num
  have ht : (calculate_tiered_stop_loss defaultConfig 1 (1/250)).1 = 0 := by
    rw [tiered_eq_gstop, hg]
    have h := round2_eq_of ((19 : ℚ)/5000) 0 (by norm_num) (by norm_num)
    rw [h]; norm_num
  rw [protectStopLoss_price, ht, if_neg (by norm_num : ¬ (1/250 : ℚ) ≤ 0)]

/-- C1: at cost 1 and current price 0.009 the tier computation yields 0.01,
the safety clamp branch is taken, and the clamped stop is still 0.01 —
strictly above the current price, so the order would trigger immediately on
submission; the claimed strict bound `stop < current` fails. -/
theorem c1_safety_clamp_fails_tiny_price :
    (protectStopLoss defaultConfig 1 (9/1000)).1 = 1/100 ∧
    (9/1000 : ℚ) ≤ (calculate_tiered_stop_loss defaultConfig 1 (9/1000)).1 ∧
    (9/1000 : ℚ) < 1/100 := by
  have hg : gstop 1 (9/1000) = 171/20000 := by unfold gstop lockOf; norm_num
  have ht : (calculate_tiered_stop_loss defaultConfig 1 (9/1000)).1 = 1/100 := by
    rw [tiered_eq_gstop, hg]
    have h := round2_eq_of ((171 : ℚ)/20000) 1 (by norm_num) (by norm_num)
    rw [h]; norm_num
  have hp : (protectStopLoss defaultConfig 1 (9/1000)).1 = 1/100 := by
    rw [protectStopLoss_price, ht, if_pos (by norm_num : (9/1000 : ℚ) ≤ 1/100)]
    have h := round2_eq_of ((9/1000 : ℚ) * (95/100)) 1 (by norm_num) (by norm_num)
    rw [h]; norm_num
  exact ⟨hp, by rw [ht]; norm_num, by norm_num⟩

/-- C2 counterexample: at cost = current = 100.001 the P&L is 0, the
breakeven tier applies, and the returned stop is 100.00 — not the cost
exactly. -/
theorem c2_breakeven_not_exact_cex :
    (calculate_tiered_stop_loss defaultConfig (100001/1000) (100001/1000)).1 = 100 ∧
    (100 : ℚ) ≠ 100001/1000 := by
  constructor
  · have hg : gstop (100001/1000) (100001/1000) = 100001/1000 := by
      unfold gstop lockOf; norm_num
    rw [tiered_eq_gstop, hg]
    have h := round2_eq_of ((100001 : ℚ)/1000) 10000 (by norm_num) (by norm_num)
    rw [h]; norm_num
  · norm_num

/-- C2 (amended): in profit the stop is the first matching tier of the
descending table applied as `round2 (cost * (1 + lock/100))`; on the
breakeven tier (P&L below 5 percent) it is `round2 cost`, which equals the
cost exactly exactly when the cost is a whole number of paise; and cost 100
with current 150 yields 135.00. -/
theorem c2_profit_tier_pricing (cost current : ℚ) (hc : 0 < cost) (hp : cost ≤ current) :
    (calculate_tiered_stop_loss defaultConfig cost current).1
      = round2 (cost * (1 + lockOf cost current / 100)) ∧
    (current < 105/100 * cost →
      (calculate_tiered_stop_loss defaultConfig cost current).1 = round2 cost) ∧
    (∀ n : ℤ, cost = (n : ℚ) / 100 → current < 105/100 * cost →
      (calculate_tiered_stop_loss defaultConfig cost current).1 = cost) ∧
    (calculate_tiered_stop_loss defaultConfig 100 150).1 = 135 := by
  have hmain : (calculate_tiered_stop_loss defaultConfig cost current).1
      = round2 (cost * (1 + lockOf cost current / 100)) := by
    rw [tiered_eq_gstop]
    unfold gstop
    rw [if_neg (not_le.mpr hc), if_pos hp]
  have hbreak : current < 105/100 * cost →
      (calculate_tiered_stop_loss defaultConfig cost current).1 = round2 cost := by
    intro hlt
    rw [hmain]
    have hl0 : lockOf cost current = 0 := by
      unfold lockOf
      rw [if_neg (by linarith), if_neg (by linarith), if_neg (by linarith),
        if_neg (by linarith), if_neg (by linarith)]
    rw [hl0]
    congr 1
    ring
  refine ⟨hmain, hbreak, ?_, tiered_default_100_150⟩
  intro n hn hlt
  rw [hbreak hlt, hn]
  unfold round2
  have h100 : (100 : ℚ) * ((n : ℚ) / 100) = (n : ℚ) := by field_simp
  rw [h100, rhe_intCast]

/-- Witness for C2: cost 100, current 102 (P&L 2 percent) gives the
breakeven stop `round2 100`. -/
theorem c2_profit_tier_pricing_witness :
    (calculate_tiered_stop_loss defaultConfig 100 102).1 = round2 100 :=
  (c2_profit_tier_pricing 100 102 (by norm_num) (by norm_num)).2.1 (by norm_num)

/-- C3 counterexample: at cost 100.001 and current 100 the shallow-loss
branch applies and returns 90.00, which differs from the unrounded
`cost * (1 - max_loss_pct/100) = 90.0009`. -/
theorem c3_loss_formula_not_exact_cex :
    (calculate_tiered_stop_loss defaultConfig (100001/1000) 100).1 = 90 ∧
    (90 : ℚ) ≠ (100001/1000) * (1 - 10/100) := by
  constructor
  · have hg : gstop (100001/1000) 100 = (100001/1000) * (9/10) := by
      unfold gstop lockOf; norm_num
    rw [tiered_eq_gstop, hg]
    have h := round2_eq_of ((100001 : ℚ)/1000 * (9/10)) 9000 (by norm_num) (by norm_num)
    rw [h]; norm_num
  · norm_num

/-- C3 (amended): in the shallow-loss band the stop is
`round2 (cost * (1 - max_loss_pct/100))`, independent of the exact P&L
within the band; at or beyond the deep-loss threshold, and likewise for
non-positive cost, it is `round2 (current * (1 - deep_loss_pct/100))`,
anchored to the current price. -/
theorem c3_loss_side_pricing (cost current : ℚ) :
    (0 < cost → 9/10 * cost < current → current < cost →
      (calculate_tiered_stop_loss defaultConfig cost current).1
        = round2 (cost * (1 - 10/100))) ∧
    (0 < cost → current ≤ 9/10 * cost →
      (calculate_tiered_stop_loss defaultConfig cost current).1
        = round2 (current * (1 - 5/100))) ∧
    (cost ≤ 0 →
      (calculate_tiered_stop_loss defaultConfig cost current).1
        = round2 (current * (1 - 5/100))) := by
  refine ⟨fun hc h9 hlt => ?_, fun hc h9 => ?_, fun hc => ?_⟩
  · rw [tiered_eq_gstop]
    unfold gstop
    rw [if_neg (not_le.mpr hc), if_neg (not_le.mpr hlt), if_pos h9]
    congr 1
    ring
  · rw [tiered_eq_gstop]
    unfold gstop
    have hlt : ¬ cost ≤ current := by linarith
    rw [if_neg (not_le.mpr hc), if_neg hlt, if_neg (by linarith)]
    congr 1
    ring
  · rw [tiered_eq_gstop]
    unfold gstop
    rw [if_pos hc]
    congr 1
    ring

/-- Witness for C3: cost 100, current 95 (P&L -5 percent) gives the
capped-loss stop `round2 90`. -/
theorem c3_loss_side_pricing_witness :
    (calculate_tiered_stop_loss defaultConfig 100 95).1 = round2 (100 * (1 - 10/100)) :=
  (c3_loss_side_pricing 100 95).1 (by norm_num) (by norm_num) (by norm_num)

/-- C4: for a fixed cost price and two positive current prices `c1 ≤ c2`,
the stop-loss price computed for order placement — tier table followed by
the safety clamp, under the default configuration — is monotone: a higher
current price never yields a lower stop. -/
theorem c4_stop_monotone (cost c1 c2 : ℚ) (h1 : 0 < c1) (h12 : c1 ≤ c2) :
    (protectStopLoss defaultConfig cost c1).1 ≤ (protectStopLoss defaultConfig cost c2).1 := by
  rw [protectStopLoss_price, protectStopLoss_price, tiered_eq_gstop, tiered_eq_gstop]
  by_cases k1 : c1 ≤ round2 (gstop cost c1) <;>
    by_cases k2 : c2 ≤ round2 (gstop cost c2)
  · rw [if_pos k1, if_pos k2]
    exact round2_mono (by linarith)
  · rw [if_pos k1, if_neg k2]
    have ha : c1 * (95/100) ≤ round2 (gstop cost c1) := by linarith
    calc round2 (c1 * (95/100)) ≤ round2 (round2 (gstop cost c1)) := round2_mono ha
      _ = round2 (gstop cost c1) := round2_round2 _
      _ ≤ round2 (gstop cost c2) := round2_mono (gstop_mono cost h1 h12)
  · rw [if_neg k1, if_pos k2]
    exact clamp_cross_case cost c1 c2 h1 h12 (not_le.mp k1) k2
  · rw [if_neg k1, if_neg k2]
    exact round2_mono (gstop_mono cost h1 h12)

/-- Witness for C4 at cost 100 and currents 100 and 150. -/
theorem c4_stop_monotone_witness :
    (protectStopLoss defaultConfig 100 100).1 ≤ (protectStopLoss defaultConfig 100 150).1 :=
  c4_stop_monotone 100 100 150 (by norm_num) (by norm_num)

/-- C5: with a holding of one share at cost 1 and a fetched LTP of 0.004,
every minimum filter and the LTP validity check pass, the tier stop rounds
to 0.00, and the engine proceeds to place a protective order whose trigger
price is exactly 0 — reported as success. -/
theorem c5_zero_trigger_placed :
    ((protect_holding defaultConfig hTiny (1/250) none false brOk).2.map
      (fun m => createTrigger m.1)) = [some 0] ∧
    (protect_holding defaultConfig hTiny (1/250) none false brOk).1.success = true := by
  have hq : ¬ (hTiny.available_qty < defaultConfig.min_quantity) := by
    norm_num [hTiny, defaultConfig]
  have hv : ¬ ((hTiny.available_qty : ℚ) * (1/250) < defaultConfig.min_value) := by
    norm_num [hTiny, defaultConfig]
  have hl : ¬ ((1/250 : ℚ) ≤ 0) := by norm_num
  constructor
  · simp only [protect_holding, brOk, List.map, createTrigger, create_protective_order,
      Option.getD, hTiny]
    rw [stop_default_tiny]
    norm_num [defaultConfig]
  · simp only [protect_holding, brOk, hTiny]
    norm_num [defaultConfig]

/-- C6: in one reconciliation pass, neither the super-order path nor the AMO
path ever issues both a successful modify and an order placement for the
same holding, whatever the inputs and broker outcomes: a successful modify
returns without creating, and a creation happens only when no modify
succeeded. -/
theorem c6_no_double_action (cfg : ProtectionConfig) (holding : Holding) (ltp : ℚ)
    (exS : Option SuperOrder) (exA : Option AmoOrder) (force : Bool)
    (amo_time : String) (brS : SuperBroker) (brA : AmoBroker) :
    noDoubleAction (protect_holding cfg holding ltp exS force brS).2 = true ∧
    noDoubleAction (protect_holding_amo cfg holding ltp exA force amo_time brA).2 = true := by
  constructor
  · rcases exS with _ | ord <;>
      simp only [protect_holding] <;>
      split_ifs <;>
      simp [noDoubleAction, isOrderModify, isOrderCreate]
  · rcases exA with _ | ord <;>
      simp only [protect_holding_amo, place_amo_sl_order] <;>
      split_ifs <;>
      simp [noDoubleAction, isOrderModify, isOrderCreate]

/-- C7 counterexample: with cost 100 and LTP 150 the recomputed stop is 135,
exactly the price of the resting stop-loss leg (delta 0, below any epsilon);
yet with force the super-order path still sends the stop-leg modify (and a
target-leg modify) instead of skipping the call. -/
theorem c7_super_modify_resent_cex :
    ((protect_holding defaultConfig h100 150 (some ordSL135) true brOk).2.map
      (fun m => m.1)) =
      [BrokerCall.modifySuperSL "SO2" 135 0, BrokerCall.modifySuperTarget "SO2" 180] ∧
    ((ordSL135.stop_loss_leg.map LegDetail.price).getD 0 : ℚ) = 135 := by
  have hq : ¬ (h100.available_qty < defaultConfig.min_quantity) := by
    norm_num [h100, defaultConfig]
  have hv : ¬ ((h100.available_qty : ℚ) * 150 < defaultConfig.min_value) := by
    norm_num [h100, defaultConfig]
  have hl : ¬ ((150 : ℚ) ≤ 0) := by norm_num
  constructor
  · simp only [protect_holding, brOk, ordSL135, h100, List.map]
    rw [stop_default_100_150, target_default_150]
    norm_num [defaultConfig]
  · simp only [SuperOrder.stop_loss_leg, ordSL135, legSL135, List.find?]
    rfl

/-- C7 (amended): only the AMO path implements the epsilon skip — when the
existing trigger is within the hard-coded 0.05 of the recomputed stop, the
pass issues no broker mutation and reports the holding already protected
(hence an immediately repeated AMO pass with unchanged prices is a no-op);
the super-order path re-sends its modify regardless of the delta. -/
theorem c7_amo_epsilon_skip (cfg : ProtectionConfig) (holding : Holding) (ltp : ℚ)
    (ord : AmoOrder) (amo_time : String) (br : AmoBroker)
    (hl : 0 < ltp)
    (hd : |ord.trigger_price - (protectStopLoss cfg holding.avg_cost_price ltp).1| ≤ 1/20) :
    (protect_holding_amo cfg holding ltp (some ord) true amo_time br).1.success = true ∧
    (protect_holding_amo cfg holding ltp (some ord) true amo_time br).1.stop_loss_price
      = ord.trigger_price ∧
    (protect_holding_amo cfg holding ltp (some ord) true amo_time br).2 = [] := by
  have h3 : ¬ ltp ≤ 0 := not_le.mpr hl
  have hd2 : ¬ 1/20 < |ord.trigger_price - (protectStopLoss cfg holding.avg_cost_price ltp).1| :=
    not_lt.mpr hd
  simp only [protect_holding_amo, if_neg h3, if_neg hd2]
  norm_num

/-- Witness for C7: the resting AMO trigger 135 equals the recomputed stop
for cost 100 at LTP 150, so the repeated pass issues nothing. -/
theorem c7_amo_epsilon_skip_witness :
    (protect_holding_amo defaultConfig h100 150 (some amoOrd135) true "OPEN" amoBrOk).1.success
      = true ∧
    (protect_holding_amo defaultConfig h100 150 (some amoOrd135) true "OPEN"
        amoBrOk).1.stop_loss_price = amoOrd135.trigger_price ∧
    (protect_holding_amo defaultConfig h100 150 (some amoOrd135) true "OPEN" amoBrOk).2 = [] :=
  c7_amo_epsilon_skip defaultConfig h100 150 amoOrd135 "OPEN" amoBrOk (by norm_num)
    (by simp only [amoOrd135, h100, stop_default_100_150]; norm_num)

/-- C8 counterexample: a protective order built at LTP 100 under the default
config stores target price 120, but the super-order request submitted to the
broker carries targetPrice 0, not the computed target. -/
theorem c8_target_dropped_cex :
    (create_protective_order defaultConfig h100 100 (some 90)).target_price = 120 ∧
    ((create_protective_order defaultConfig h100 100 (some 90)).to_super_order_request
      "CID" "T").targetPrice = 0 ∧
    (0 : ℚ) ≠ 120 := by
  have htg : calculate_target_price defaultConfig 100 = 120 := by
    unfold calculate_target_price
    have he : (100 : ℚ) * (1 + defaultConfig.target_percent / 100) = 120 := by
      norm_num [defaultConfig]
    rw [he]
    have h := round2_eq_of (120 : ℚ) 12000 (by norm_num) (by norm_num)
    rw [h]; norm_num
  refine ⟨?_, rfl, by norm_num⟩
  simp [create_protective_order, htg]

/-- C8 (amended): immediate mode computes the target as
`round2 (current * (1 + target_pct/100))` and stores it on the
`ProtectiveOrder`, but the placement request always submits `targetPrice = 0`
(target leg disabled) with order type STOP_LOSS_MARKET and the stop as
`triggerPrice`. -/
theorem c8_request_shape (p : ProtectiveOrder) (client_id now : String)
    (cfg : ProtectionConfig) (holding : Holding) (ltp : ℚ) (slp : Option ℚ) :
    (p.to_super_order_request client_id now).targetPrice = 0 ∧
    (p.to_super_order_request client_id now).triggerPrice = p.stop_loss_price ∧
    (p.to_super_order_request client_id now).orderType = "STOP_LOSS_MARKET" ∧
    (create_protective_order cfg holding ltp slp).target_price
      = round2 (ltp * (1 + cfg.target_percent / 100)) :=
  ⟨rfl, rfl, rfl, rfl⟩

/-- C9: the LTP cache survives across passes. A first pass that fetches
close price 100 for the holding fills the cache; a second pass whose bulk
quote covers nothing leaves the stale entry in place, so the engine runs on
LTP 100 instead of the 0 the claim requires — while a fresh instance does
yield 0. -/
theorem c9_stale_ltp_cache :
    portfolio_ltp
      (fetch_all_market_data (fetch_all_market_data initState [hTiny] mdPass1)
        [hTiny] (fun _ => none)) hTiny = 100 ∧
    portfolio_ltp (fetch_all_market_data initState [hTiny] (fun _ => none)) hTiny = 0 ∧
    (100 : ℚ) ≠ 0 := by
  refine ⟨?_, ?_, by norm_num⟩
  · simp [portfolio_ltp, fetch_all_market_data, initState, hTiny, mdPass1]
  · simp [portfolio_ltp, fetch_all_market_data, initState, hTiny]

/-- C10: when the minimum-quantity, minimum-value and LTP checks pass, an
existing order is present and force is off, the result reports success with
the existing order id and the price of its stop-loss leg (0 when the order
has no stop-loss leg), and no broker call is made. -/
theorem c10_already_protected (cfg : ProtectionConfig) (holding : Holding) (ltp : ℚ)
    (ord : SuperOrder) (br : SuperBroker)
    (hq : cfg.min_quantity ≤ holding.available_qty)
    (hv : cfg.min_value ≤ holding.available_qty * ltp)
    (hl : 0 < ltp) :
    (protect_holding cfg holding ltp (some ord) false br).1.success = true ∧
    (protect_holding cfg holding ltp (some ord) false br).1.order_id = some ord.order_id ∧
    (protect_holding cfg holding ltp (some ord) false br).1.stop_loss_price
      = (ord.stop_loss_leg.map LegDetail.price).getD 0 ∧
    (protect_holding cfg holding ltp (some ord) false br).2 = [] := by
  have h1 : ¬ holding.available_qty < cfg.min_quantity := not_lt.mpr hq
  have h2 : ¬ (holding.available_qty : ℚ) * ltp < cfg.min_value := not_lt.mpr hv
  have h3 : ¬ ltp ≤ 0 := not_le.mpr hl
  simp [protect_holding, h1, h2, h3]

/-- Witness for C10: the h100 holding at LTP 150 with the resting order
ordSL135 and force off reports already protected at the leg price. -/
theorem c10_already_protected_witness :
    (protect_holding defaultConfig h100 150 (some ordSL135) false brOk).1.success = true ∧
    (protect_holding defaultConfig h100 150 (some ordSL135) false brOk).1.order_id
      = some ordSL135.order_id ∧
    (protect_holding defaultConfig h100 150 (some ordSL135) false brOk).1.stop_loss_price
      = (ordSL135.stop_loss_leg.map LegDetail.price).getD 0 ∧
    (protect_holding defaultConfig h100 150 (some ordSL135) false brOk).2 = [] :=
  c10_already_protected defaultConfig h100 150 ordSL135 brOk
    (by norm_num [defaultConfig, h100]) (by norm_num [defaultConfig, h100]) (by norm_num)

end DhanTracker
